import Mathlib

/-!
Verification of the auth-redirect handshake of `ms_identity_web`
(src/ms_identity_web/__init__.py, class `IdentityWebPython`).

The orchestrator methods are embedded as pure Lean functions: the mutable
`IdentityContextData` held by the adapter is threaded explicitly, Python
exceptions become an `AuthError` sum surfaced through `Except`/`Option`,
and the external msal client (network calls) is a function parameter.
The repository modules `context.py`, `constants.py`, `errors.py` and
`adapters.py` are not under src/; the definitions that stand in for them
are modelled from the spec and say so in their doc comments.
-/

/-- Python `dict.get(key, None)` over a mapping represented as an
association list (first binding wins, as request-params mappings have
distinct keys). -/
def dictGet (ps : List (String × String)) (k : String) : Option String :=
  match ps with
  | [] => none
  | (k2, v) :: rest => if k2 = k then some v else dictGet rest k

/-- Python truthiness of an optional string: `None` and `""` are falsy. -/
def pyTruthyStr (s : Option String) : Bool :=
  match s with
  | none => false
  | some s => !(s = "")

/-- Python `a or b` on optional strings. -/
def pyOrOpt (a b : Option String) : Option String :=
  if pyTruthyStr a then a else b

/-- Python `a or dflt` where `dflt` is a definitely-present string. -/
def pyOrStr (a : Option String) (dflt : String) : String :=
  match a with
  | some s => if s = "" then dflt else s
  | none => dflt

/-- Modelled from the spec: the per-session `IdentityContextData` record
(spec section 3); the `context` module is not under src/. -/
structure IdentityContextData where
  authenticated : Bool
  state : Option String
  nonce : Option String
  last_used_b2c_policy : Option String
  username : String
  id_token_claims : Option (List (String × String))
  access_token : Option String
  token_cache : Option String
  has_changed : Bool
deriving DecidableEq, Repr

/-- Modelled from the spec: the default (cleared) Context Data
(spec section 3: `authenticated` false, `username` "anonymous", all
tokens and single-use values absent). -/
def emptyContext : IdentityContextData :=
  { authenticated := false
    state := none
    nonce := none
    last_used_b2c_policy := none
    username := "anonymous"
    id_token_claims := none
    access_token := none
    token_cache := none
    has_changed := false }

/-- Modelled from the spec: the error taxonomy of `errors.py` (not under
src/), spec section 7. `indexError` stands for Python's built-in
IndexError (list index out of range), which is not an auth error. -/
inductive AuthError where
  | securityError (msg : String)
  | otherAuthError (msg : String)
  | b2cPasswordError (msg : String)
  | tokenExchangeError (msg : String)
  | notImplementedError (msg : String)
  | indexError
deriving DecidableEq, Repr

/-- Modelled from the spec: constants module is not under src/. The
request-param key carrying a provider error code (spec section 6). -/
def ERROR_CODE_PARAM_KEY : String := "error"

/-- Modelled from the spec: the B2C forgot-password error-code marker
(spec section 8, end-to-end scenario 3 uses "AADB2C90118"). -/
def B2C_FORGOT_PASSWORD_ERROR_CODE : String := "AADB2C90118"

/-- Modelled from the spec: the authorization-code response type. -/
def RESPONSE_TYPE_CODE : String := "code"

/-- Modelled from the spec: the account-picker prompt value stripped by
`prepare_b2c_auth` for non-default policies. -/
def SELECT_ACCOUNT : String := "select_account"

/-- Modelled from the spec: authority type, standard vs. policy-based
(B2C); the source compares `aad_config.type.authority_type` against the
B2C constant. -/
inductive AuthorityType where
  | single_tenant
  | b2c
deriving DecidableEq, Repr

/-- Modelled from the spec (section 6, configuration consumed): the
`aad_config.client` settings used by the source. -/
structure ClientSettings where
  client_id : String
  authority : String
deriving DecidableEq, Repr

/-- Modelled from the spec: the `aad_config.auth_request` settings the
source reads (`scopes`, `redirect_uri`, `response_type`) plus the
`prompt` entry consulted by `prepare_b2c_auth`. -/
structure AuthRequestSettings where
  scopes : List String
  redirect_uri : Option String
  response_type : Option String
  prompt : Option String
deriving DecidableEq, Repr

/-- Modelled from the spec: `aad_config.type`. -/
structure TypeSettings where
  authority_type : AuthorityType
deriving DecidableEq, Repr

/-- Modelled from the spec: the `aad_config.b2c` policy names (default
sign-up/sign-in policy and password-reset policy). -/
structure B2CSettings where
  susi : String
  password : String
deriving DecidableEq, Repr

/-- Modelled from the spec: the read-only `AADConfig` collaborator. -/
structure AADConfig where
  client : ClientSettings
  auth_request : AuthRequestSettings
  type : TypeSettings
  b2c : B2CSettings
deriving DecidableEq, Repr

/-- Embeds `IdentityWebPython._verify_state` (lines 268-276): compare the
request's `state` with the session's stored state; raise
`AuthSecurityError` on absence or mismatch, else clear the stored state
(single use). `ctx` is the adapter's `identity_context_data`. -/
def _verify_state (ctx : IdentityContextData) (req_params : List (String × String)) :
    Except AuthError IdentityContextData :=
  let state := dictGet req_params "state"
  let session_state := ctx.state
  if state = none ∨ session_state ≠ state then
    .error (.securityError "Failed to match request state with session state")
  else
    .ok { ctx with state := none }

/-- Embeds `IdentityWebPython.remove_user` (lines 252-254), which calls
`adapter.clear_session()`. Modelled from the spec: `clearSession` clears
all session-bound Context Data (spec sections 4.1 and 6). -/
def remove_user (_ctx : IdentityContextData) : IdentityContextData :=
  emptyContext

deriving instance DecidableEq for Except

/-- The msal client configuration assembled by `_client_factory`: the
copied `aad_config.client` settings with `authority` overridden and the
token cache installed when truthy. The token-cache blob is opaque
(spec section 6: treated as bytes/string). -/
structure ClientConfig where
  client_id : String
  authority : String
  token_cache : Option String
deriving DecidableEq, Repr

/-- Embeds `IdentityWebPython._client_factory` (lines 75-82). Parameter
order is the source signature order `(token_cache, b2c_policy)`; the
authority is suffixed with `b2c_policy or ""` and the cache is installed
only when truthy (`if token_cache:`). -/
def _client_factory (cfg : AADConfig) (token_cache : Option String)
    (b2c_policy : Option String) : ClientConfig :=
  { client_id := cfg.client.client_id
    authority := cfg.client.authority ++ b2c_policy.getD ""
    token_cache := if pyTruthyStr token_cache then token_cache else none }

/-- The mutable `auth_req_config` dict of `get_auth_url`: the copied
`aad_config.auth_request` entries, plus `extra` for keyword arguments
whose key is none of the known entries (a Python dict accepts any key). -/
structure AuthRequestDict where
  scopes : List String
  redirect_uri : Option String
  response_type : Option String
  prompt : Option String
  extra : List (String × String)
deriving DecidableEq, Repr

/-- `aad_config.auth_request.__dict__.copy()`. -/
def toAuthRequestDict (s : AuthRequestSettings) : AuthRequestDict :=
  { scopes := s.scopes
    redirect_uri := s.redirect_uri
    response_type := s.response_type
    prompt := s.prompt
    extra := [] }

/-- One step of `auth_req_config.update(**msal_auth_url_kwargs)`: a known
key overwrites its entry, an unknown key lands in `extra`. -/
def updateAuthRequestDict (d : AuthRequestDict) (kv : String × String) : AuthRequestDict :=
  if kv.1 = "redirect_uri" then { d with redirect_uri := some kv.2 }
  else if kv.1 = "response_type" then { d with response_type := some kv.2 }
  else if kv.1 = "prompt" then { d with prompt := some kv.2 }
  else { d with extra := d.extra ++ [kv] }

def updateAuthRequestDictAll (d : AuthRequestDict) (kvs : List (String × String)) :
    AuthRequestDict :=
  kvs.foldl updateAuthRequestDict d

/-- Embeds `IdentityWebPython.prepare_b2c_auth` (lines 106-116): resolve
the effective policy (default susi when the argument is falsy), strip the
account-picker prompt for non-default policies, and persist the resolved
policy into Context Data as `last_used_b2c_policy`. -/
def prepare_b2c_auth (cfg : AADConfig) (ctx : IdentityContextData)
    (auth_req_config_dict : AuthRequestDict) (b2c_policy : Option String) :
    IdentityContextData × AuthRequestDict × String :=
  let resolved :=
    if pyTruthyStr b2c_policy then
      let p := b2c_policy.getD ""
      if p ≠ cfg.b2c.susi ∧ auth_req_config_dict.prompt = some SELECT_ACCOUNT then
        ({ auth_req_config_dict with prompt := none }, p)
      else
        (auth_req_config_dict, p)
    else
      (auth_req_config_dict, cfg.b2c.susi)
  ({ ctx with last_used_b2c_policy := some resolved.2 }, resolved.1, resolved.2)

/-- Modelled from the spec: msal's `get_authorization_request_url` is an
external collaborator; per spec section 6 the outbound authorization URL
is the authority (already carrying the optional policy path segment in
`ClientConfig.authority`) followed by the query parameters client_id,
redirect_uri, scope, state, nonce, response_type and optional prompt.
Entries absent from the request dict are omitted; unknown extra entries
are not part of the spec's URL. -/
def get_authorization_request_url (client : ClientConfig) (req : AuthRequestDict) : String :=
  client.authority
    ++ "?client_id=" ++ client.client_id
    ++ (match req.redirect_uri with
        | some r => "&redirect_uri=" ++ r
        | none => "")
    ++ "&scope=" ++ String.intercalate " " req.scopes
    ++ (match req.response_type with
        | some rt => "&response_type=" ++ rt
        | none => "")
    ++ (match req.prompt with
        | some p => "&prompt=" ++ p
        | none => "")

/-- Embeds `IdentityWebPython.get_auth_url` (lines 86-103): copy the
auth-request settings, merge keyword arguments, apply an explicit
redirect URI when truthy, and either run the B2C preparation (persisting
the resolved policy) or build the URL directly. Returns the possibly
updated Context Data and the URL. -/
def get_auth_url (cfg : AADConfig) (ctx : IdentityContextData)
    (redirect_uri : Option String) (b2c_policy : Option String)
    (msal_auth_url_kwargs : List (String × String)) : IdentityContextData × String :=
  let auth_req_config := updateAuthRequestDictAll (toAuthRequestDict cfg.auth_request)
      msal_auth_url_kwargs
  let auth_req_config :=
    if pyTruthyStr redirect_uri then
      { auth_req_config with redirect_uri := redirect_uri }
    else
      auth_req_config
  if cfg.type.authority_type = AuthorityType.b2c then
    let prepared := prepare_b2c_auth cfg ctx auth_req_config b2c_policy
    (prepared.1, get_authorization_request_url (_client_factory cfg none (some prepared.2.2))
        prepared.2.1)
  else
    (ctx, get_authorization_request_url (_client_factory cfg none none) auth_req_config)

/-- The token response dict returned by the msal client; key presence is
modelled with `Option`. -/
structure TokenResult where
  error : Option String
  error_description : Option String
  id_token_claims : Option (List (String × String))
  access_token : Option String
deriving DecidableEq, Repr

/-- The external msal `acquire_token_by_authorization_code` call
(client, code, scopes, redirect_uri, nonce), supplied as a parameter:
its behaviour is the provider's, not this repository's. -/
def TokenClient : Type :=
  ClientConfig → Option String → List String → Option String → Option String → TokenResult

/-- A mock token client returning a fixed result. -/
def constClient (r : TokenResult) : TokenClient :=
  fun _ _ _ _ _ => r

/-- Python `s.startswith(pre)` over the characters of the strings. -/
def strStartsWith (s pre : String) : Bool :=
  pre.toList.isPrefixOf s.toList

/-- Embeds `IdentityWebPython._parse_redirect_errors` (lines 219-230):
an `error` request param beginning with the B2C forgot-password code
raises `B2CPasswordError`; any other error code raises `OtherAuthError`. -/
def _parse_redirect_errors (req_params : List (String × String)) : Except AuthError Unit :=
  match dictGet req_params ERROR_CODE_PARAM_KEY with
  | some error_code =>
    if strStartsWith error_code B2C_FORGOT_PASSWORD_ERROR_CODE then
      .error (.b2cPasswordError "B2C password reset request")
    else
      .error (.otherAuthError "Unknown error while parsing redirect")
  | none => .ok ()

/-- Embeds `IdentityWebPython._extract_auth_response_payload`
(lines 232-237): only the `code` response type is supported; the payload
is `req_params.get('code', None)`. -/
def _extract_auth_response_payload (req_params : List (String × String))
    (expected_response_type : String) : Except AuthError (Option String) :=
  if expected_response_type = RESPONSE_TYPE_CODE then
    .ok (dictGet req_params RESPONSE_TYPE_CODE)
  else
    .error (.notImplementedError "Only code response is currently supported by identity utils")

/-- Embeds `IdentityWebPython._x_change_auth_code_for_token`
(lines 169-182). The source calls `self._client_factory(b2c_policy,
token_cache)` with positional arguments while the factory signature is
`(token_cache, b2c_policy)`, so here `b2c_policy` is passed in the
factory's `token_cache` slot and vice versa, exactly as in the source. -/
def _x_change_auth_code_for_token (tokenClient : TokenClient) (cfg : AADConfig)
    (id_context : IdentityContextData) (code : Option String)
    (token_cache : Option String) (redirect_uri : Option String) : TokenResult :=
  let b2c_policy :=
    if cfg.type.authority_type = AuthorityType.b2c then id_context.last_used_b2c_policy
    else none
  let client := _client_factory cfg b2c_policy token_cache
  let redirect_uri := pyOrOpt redirect_uri (pyOrOpt cfg.auth_request.redirect_uri none)
  tokenClient client code cfg.auth_request.scopes redirect_uri id_context.nonce

/-- Embeds `IdentityWebPython._process_result` (lines 200-217): a result
without an `error` key marks the context authenticated, copies claims
(username from the `name` claim, default "anonymous") and access token
when present, sets the dirty flag and stores the token cache back; a
result with an `error` key raises `TokenExchangeError`. -/
def _process_result (result : TokenResult) (token_cache : Option String)
    (id_context : IdentityContextData) : Except AuthError IdentityContextData :=
  match result.error with
  | none =>
    let c1 := { id_context with authenticated := true }
    let c2 :=
      match result.id_token_claims with
      | some claims =>
        { c1 with id_token_claims := some claims
                  username := (dictGet claims "name").getD "anonymous" }
      | none => c1
    let c3 :=
      match result.access_token with
      | some tok => { c2 with access_token := some tok }
      | none => c2
    .ok { c3 with has_changed := true, token_cache := token_cache }
  | some err =>
    .error (.tokenExchangeError
      ("_process_result: auth failed: token request resulted in error " ++ err))

/-- The body of the `try` block of
`IdentityWebPython.process_auth_redirect` (lines 122-144): verify state,
parse provider errors, resolve the response type, extract the payload,
exchange the code and process the result, threading Context Data. -/
def process_auth_redirect_run (tokenClient : TokenClient) (cfg : AADConfig)
    (ctx : IdentityContextData) (req_params : List (String × String))
    (redirect_uri : Option String) (response_type : Option String) :
    Except AuthError IdentityContextData :=
  match _verify_state ctx req_params with
  | .error e => .error e
  | .ok ctx2 =>
    match _parse_redirect_errors req_params with
    | .error e => .error e
    | .ok _ =>
      let resp_type := pyOrStr response_type
          (pyOrStr cfg.auth_request.response_type RESPONSE_TYPE_CODE)
      match _extract_auth_response_payload req_params resp_type with
      | .error e => .error e
      | .ok payload =>
        let cache := ctx2.token_cache
        if resp_type = RESPONSE_TYPE_CODE then
          _process_result
            (_x_change_auth_code_for_token tokenClient cfg ctx2 payload cache redirect_uri)
            cache ctx2
        else
          .error (.notImplementedError
            "response_type is not yet implemented by ms_identity_web_python")

/-- Embeds `IdentityWebPython.process_auth_redirect` (lines 119-167,
the spec's `handle_auth_redirect`): on success return `next_action`;
every handler first clears the session (`remove_user`); the
`B2CPasswordError` handler then builds a fresh auth URL with the keyword
argument `policy=aad_config.b2c.password` (which `get_auth_url` receives
among its extra kwargs, not as its `b2c_policy` parameter) and returns a
redirect instruction (`Sum.inr url`, the adapter's
`redirect_to_absolute_url`); all other handlers fall through to
returning `next_action` (`Sum.inl`). -/
def process_auth_redirect {α : Type} (tokenClient : TokenClient) (cfg : AADConfig)
    (ctx : IdentityContextData) (req_params : List (String × String)) (next_action : α)
    (redirect_uri : Option String) (response_type : Option String) :
    IdentityContextData × (α ⊕ String) :=
  match process_auth_redirect_run tokenClient cfg ctx req_params redirect_uri response_type with
  | .ok ctx2 => (ctx2, Sum.inl next_action)
  | .error e =>
    let ctx2 := remove_user ctx
    match e with
    | .b2cPasswordError _ =>
      let built := get_auth_url cfg ctx2 none none [("policy", cfg.b2c.password)]
      (built.1, Sum.inr built.2)
    | _ => (ctx2, Sum.inl next_action)

/-- Embeds `IdentityWebPython.acquire_token_silently` (lines 184-198):
resolve the cache (argument or stored), build a client (keyword call
`_client_factory(token_cache=token_cache)`, no policy), resolve scopes,
take the given account or `client.get_accounts()[0]` — which raises
Python's IndexError when the client reports no accounts — then run the
silent request and `_process_result`. Returns the updated Context Data
(unchanged whenever an error is surfaced) with the surfaced error. The
external `get_accounts` and `acquire_token_silent_with_error` calls are
parameters. -/
def acquire_token_silently (getAccounts : ClientConfig → List String)
    (silentClient : ClientConfig → List String → String → TokenResult)
    (cfg : AADConfig) (ctx : IdentityContextData)
    (scopes : Option (List String)) (account : Option String)
    (_authority : Option String) (token_cache : Option String) :
    IdentityContextData × Option AuthError :=
  let token_cache := pyOrOpt token_cache ctx.token_cache
  let client := _client_factory cfg token_cache none
  let scopes2 :=
    match scopes with
    | some l => if l = [] then cfg.auth_request.scopes else l
    | none => cfg.auth_request.scopes
  let acct :=
    match account with
    | some a => some a
    | none => (getAccounts client).head?
  match acct with
  | none => (ctx, some .indexError)
  | some a =>
    let result := silentClient client scopes2 a
    match _process_result result token_cache ctx with
    | .ok ctx2 => (ctx2, none)
    | .error e => (ctx, some e)

/-- The claim's notion of surfacing a provider error: per the error
taxonomy, `TokenExchangeError` is the surface for an error payload
returned by the provider during code redemption or silent refresh. -/
def isProviderErrorSurface (e : Option AuthError) : Bool :=
  match e with
  | some (.tokenExchangeError _) => true
  | _ => false

/-- Substring containment, for checking which policy segment an outbound
URL carries. -/
def strContains (hay needle : String) : Prop :=
  needle.toList <:+: hay.toList

instance (hay needle : String) : Decidable (strContains hay needle) :=
  List.decidableInfix needle.toList hay.toList

/- Concrete fixtures for witnesses and counterexamples. -/

/-- A small B2C configuration: authority "A/", susi policy "S",
password-reset policy "P". -/
def cfgB2C : AADConfig :=
  { client := { client_id := "c", authority := "A/" }
    auth_request := { scopes := ["sc"], redirect_uri := some "R",
                      response_type := some "code", prompt := none }
    type := { authority_type := .b2c }
    b2c := { susi := "S", password := "P" } }

/-- Context with an outstanding state "s1". -/
def ctxS1 : IdentityContextData :=
  { emptyContext with state := some "s1" }

/-- Request params of end-to-end scenario 3 (forgot-password redirect). -/
def paramsPwReset : List (String × String) :=
  [("state", "s1"), ("error", "AADB2C90118")]

/-- The empty token result mapping. -/
def tokenResultEmpty : TokenResult :=
  { error := none, error_description := none, id_token_claims := none, access_token := none }

/-- A token client recording the client configuration it was handed
inside the result, to observe what `_x_change_auth_code_for_token`
builds. -/
def probeClient : TokenClient := fun client _ _ _ _ =>
  { error := some client.authority
    error_description := client.token_cache
    id_token_claims := none
    access_token := none }

/- Inversion helpers: which step can raise which error. -/

theorem verify_state_error_inv {ctx : IdentityContextData} {ps : List (String × String)}
    {e : AuthError} (h : _verify_state ctx ps = .error e) :
    ∃ m, e = AuthError.securityError m := by
  unfold _verify_state at h
  dsimp only at h
  split at h
  · exact ⟨_, by injection h with h2; exact h2.symm⟩
  · injection h

theorem verify_state_none_error {ctx : IdentityContextData} (ps : List (String × String))
    (h : ctx.state = none) :
    ∃ m, _verify_state ctx ps = .error (AuthError.securityError m) := by
  refine ⟨"Failed to match request state with session state", ?_⟩
  unfold _verify_state
  cases hdg : dictGet ps "state" <;> simp [hdg, h]

theorem verify_state_ok_inv {ctx ctx2 : IdentityContextData} {ps : List (String × String)}
    (h : _verify_state ctx ps = .ok ctx2) :
    (∃ s, dictGet ps "state" = some s ∧ ctx.state = some s) ∧
      ctx2 = { ctx with state := none } := by
  unfold _verify_state at h
  dsimp only at h
  split at h
  · injection h
  next hcond =>
    push_neg at hcond
    obtain ⟨h1, h2⟩ := hcond
    obtain ⟨s, hs⟩ := Option.ne_none_iff_exists.mp h1
    refine ⟨⟨s, hs.symm, ?_⟩, by injection h with h3; exact h3.symm⟩
    rw [h2, ← hs]

theorem extract_error_inv {ps : List (String × String)} {rt : String} {e : AuthError}
    (h : _extract_auth_response_payload ps rt = .error e) :
    ∃ m, e = AuthError.notImplementedError m := by
  unfold _extract_auth_response_payload at h
  split at h
  · injection h
  · exact ⟨_, by injection h with h2; exact h2.symm⟩

theorem process_result_error_inv {r : TokenResult} {tc : Option String}
    {ctx : IdentityContextData} {e : AuthError}
    (h : _process_result r tc ctx = .error e) :
    ∃ m, e = AuthError.tokenExchangeError m := by
  unfold _process_result at h
  split at h
  · injection h
  · exact ⟨_, by injection h with h2; exact h2.symm⟩

theorem parse_redirect_b2c_inv {ps : List (String × String)} {m : String}
    (h : _parse_redirect_errors ps = .error (AuthError.b2cPasswordError m)) :
    ∃ ec, dictGet ps ERROR_CODE_PARAM_KEY = some ec ∧
      strStartsWith ec B2C_FORGOT_PASSWORD_ERROR_CODE = true := by
  unfold _parse_redirect_errors at h
  split at h
  next ec heq =>
    split at h
    next hpre => exact ⟨ec, heq, hpre⟩
    next => injection h with h2; injection h2
  next => injection h

theorem run_b2c_inv {tokenClient : TokenClient} {cfg : AADConfig}
    {ctx : IdentityContextData} {ps : List (String × String)}
    {ru rt : Option String} {m : String}
    (h : process_auth_redirect_run tokenClient cfg ctx ps ru rt
        = .error (AuthError.b2cPasswordError m)) :
    ∃ ec, dictGet ps ERROR_CODE_PARAM_KEY = some ec ∧
      strStartsWith ec B2C_FORGOT_PASSWORD_ERROR_CODE = true := by
  unfold process_auth_redirect_run at h
  split at h
  next e heq =>
    injection h with h2
    subst h2
    obtain ⟨m2, hm2⟩ := verify_state_error_inv heq
    injection hm2
  next ctx2 heq =>
    split at h
    next e heq2 =>
      injection h with h2
      subst h2
      exact parse_redirect_b2c_inv heq2
    next =>
      dsimp only at h
      split at h
      next e heq3 =>
        injection h with h2
        subst h2
        obtain ⟨m3, hm3⟩ := extract_error_inv heq3
        injection hm3
      next payload heq3 =>
        split at h
        · obtain ⟨m4, hm4⟩ := process_result_error_inv h
          injection hm4
        · injection h with h2; injection h2

/-- C10: `remove_user` is idempotent — for every Context Data state,
clearing twice leaves the same cleared state as clearing once. -/
theorem claim_C10 (ctx : IdentityContextData) :
    remove_user (remove_user ctx) = remove_user ctx :=
  rfl

/-- C8: if the stored state is absent, `_verify_state` raises a
`SecurityError` (also when the request's `state` is absent); success
requires the request state and the stored state to be present and equal,
clears the stored state, and can never happen twice for the same stored
state. -/
theorem claim_C8 (ctx : IdentityContextData) (req_params : List (String × String)) :
    (ctx.state = none →
      ∃ m, _verify_state ctx req_params = .error (AuthError.securityError m)) ∧
    (∀ ctx2, _verify_state ctx req_params = .ok ctx2 →
      (∃ s, dictGet req_params "state" = some s ∧ ctx.state = some s) ∧
      ctx2.state = none ∧
      ∀ ps2, ∃ m, _verify_state ctx2 ps2 = .error (AuthError.securityError m)) := by
  constructor
  · intro h
    exact verify_state_none_error req_params h
  · intro ctx2 h
    obtain ⟨hmatch, hctx2⟩ := verify_state_ok_inv h
    subst hctx2
    exact ⟨hmatch, rfl, fun ps2 => verify_state_none_error ps2 rfl⟩

/-- C8 witness: with no stored state verification fails even on empty
request params, and after a successful verification a replay of the very
same params fails. -/
theorem claim_C8_witness :
    (∃ m, _verify_state emptyContext [] = .error (AuthError.securityError m)) ∧
    (∃ m, _verify_state { ctxS1 with state := none } paramsPwReset
        = .error (AuthError.securityError m)) := by
  refine ⟨(claim_C8 emptyContext []).1 rfl, ?_⟩
  exact ((claim_C8 ctxS1 paramsPwReset).2 { ctxS1 with state := none } (by decide)).2.2
    paramsPwReset

/-- C9: a result mapping without the `error` key makes `_process_result`
set `authenticated` to true — even when it carries neither claims nor an
access token, in which case username, claims and access token keep their
prior values — while the dirty flag is set and the token cache is stored
back. -/
theorem claim_C9 (result : TokenResult) (token_cache : Option String)
    (ctx : IdentityContextData) (herr : result.error = none) :
    ∃ ctx2, _process_result result token_cache ctx = .ok ctx2 ∧
      ctx2.authenticated = true ∧
      ctx2.has_changed = true ∧
      ctx2.token_cache = token_cache ∧
      (result.id_token_claims = none →
        ctx2.username = ctx.username ∧ ctx2.id_token_claims = ctx.id_token_claims) ∧
      (result.access_token = none → ctx2.access_token = ctx.access_token) := by
  rcases hc : result.id_token_claims with _ | claims
  · rcases ha : result.access_token with _ | tok
    · have hres : _process_result result token_cache ctx
          = .ok { ctx with authenticated := true, has_changed := true, token_cache := token_cache } := by
        simp [_process_result, herr, hc, ha]
      exact ⟨_, hres, rfl, rfl, rfl, fun _ => ⟨rfl, rfl⟩, fun _ => rfl⟩
    · have hres : _process_result result token_cache ctx
          = .ok { ctx with authenticated := true, access_token := some tok, has_changed := true, token_cache := token_cache } := by
        simp [_process_result, herr, hc, ha]
      exact ⟨_, hres, rfl, rfl, rfl, fun _ => ⟨rfl, rfl⟩, fun hcon => Option.noConfusion hcon⟩
  · rcases ha : result.access_token with _ | tok
    · have hres : _process_result result token_cache ctx
          = .ok { ctx with authenticated := true, id_token_claims := some claims, username := (dictGet claims "name").getD "anonymous", has_changed := true, token_cache := token_cache } := by
        simp [_process_result, herr, hc, ha]
      exact ⟨_, hres, rfl, rfl, rfl, fun hcon => Option.noConfusion hcon, fun _ => rfl⟩
    · have hres : _process_result result token_cache ctx
          = .ok { ctx with authenticated := true, id_token_claims := some claims, username := (dictGet claims "name").getD "anonymous", access_token := some tok, has_changed := true, token_cache := token_cache } := by
        simp [_process_result, herr, hc, ha]
      exact ⟨_, hres, rfl, rfl, rfl, fun hcon => Option.noConfusion hcon,
        fun hcon => Option.noConfusion hcon⟩

/-- C9 witness: the empty result mapping at an arbitrary concrete
context. -/
theorem claim_C9_witness :
    ∃ ctx2, _process_result tokenResultEmpty (some "tc") ctxS1 = .ok ctx2 ∧
      ctx2.authenticated = true ∧
      ctx2.has_changed = true ∧
      ctx2.token_cache = some "tc" ∧
      (tokenResultEmpty.id_token_claims = none →
        ctx2.username = ctxS1.username ∧ ctx2.id_token_claims = ctxS1.id_token_claims) ∧
      (tokenResultEmpty.access_token = none → ctx2.access_token = ctxS1.access_token) :=
  claim_C9 tokenResultEmpty (some "tc") ctxS1 rfl

/-- C1: a request whose `state` param is present and equal to the stored
state verifies and clears the stored state (single use); a request whose
`state` param is absent or differs raises a `SecurityError`, Context
Data is fully cleared, and `process_auth_redirect` still returns
`next_action` unchanged. -/
theorem claim_C1 {α : Type} (tokenClient : TokenClient) (cfg : AADConfig)
    (ctx : IdentityContextData) (req_params : List (String × String)) (next_action : α)
    (redirect_uri response_type : Option String) :
    (∀ s, dictGet req_params "state" = some s → ctx.state = some s →
      _verify_state ctx req_params = .ok { ctx with state := none }) ∧
    ((dictGet req_params "state" = none ∨
        (∃ s, dictGet req_params "state" = some s ∧ ctx.state ≠ some s)) →
      (∃ m, _verify_state ctx req_params = .error (AuthError.securityError m)) ∧
      process_auth_redirect tokenClient cfg ctx req_params next_action redirect_uri
        response_type = (emptyContext, Sum.inl next_action)) := by
  constructor
  · intro s h1 h2
    simp [_verify_state, h1, h2]
  · intro h
    have hv : _verify_state ctx req_params
        = .error (AuthError.securityError "Failed to match request state with session state") := by
      rcases h with habs | ⟨s, hs, hne⟩
      · simp [_verify_state, habs]
      · simp [_verify_state, hs, hne]
    refine ⟨⟨_, hv⟩, ?_⟩
    simp [process_auth_redirect, process_auth_redirect_run, hv, remove_user]

/-- C1 witness: matching state "s1" verifies and is cleared; the
mismatched state of end-to-end scenario 2 raises and fully clears. -/
theorem claim_C1_witness :
    _verify_state ctxS1 [("state", "s1")] = .ok { ctxS1 with state := none } ∧
    (∃ m, _verify_state ctxS1 [("state", "wrong")] = .error (AuthError.securityError m)) ∧
    process_auth_redirect (constClient tokenResultEmpty) cfgB2C ctxS1 [("state", "wrong")]
      (0 : Nat) none none = (emptyContext, Sum.inl 0) := by
  refine ⟨?_, ?_⟩
  · exact (claim_C1 (constClient tokenResultEmpty) cfgB2C ctxS1 [("state", "s1")]
      (0 : Nat) none none).1 "s1" (by decide) (by decide)
  · exact (claim_C1 (constClient tokenResultEmpty) cfgB2C ctxS1 [("state", "wrong")]
      (0 : Nat) none none).2 (Or.inr ⟨"wrong", by decide, by decide⟩)

/-- C5: `process_auth_redirect` is a total function of its inputs — no
exception escapes — and its outcome is always either the unchanged
`next_action` or a redirect instruction, the latter only when the
request carried an error code with the B2C forgot-password marker. -/
theorem claim_C5 {α : Type} (tokenClient : TokenClient) (cfg : AADConfig)
    (ctx : IdentityContextData) (req_params : List (String × String)) (next_action : α)
    (redirect_uri response_type : Option String) :
    (∃ ctx2, process_auth_redirect tokenClient cfg ctx req_params next_action redirect_uri
        response_type = (ctx2, Sum.inl next_action)) ∨
    (∃ ctx2 url, process_auth_redirect tokenClient cfg ctx req_params next_action redirect_uri
        response_type = (ctx2, Sum.inr url) ∧
      ∃ ec, dictGet req_params ERROR_CODE_PARAM_KEY = some ec ∧
        strStartsWith ec B2C_FORGOT_PASSWORD_ERROR_CODE = true) := by
  rcases hrun : process_auth_redirect_run tokenClient cfg ctx req_params redirect_uri
      response_type with e | ctx2
  · cases e with
    | securityError m =>
      exact Or.inl ⟨emptyContext, by simp [process_auth_redirect, hrun, remove_user]⟩
    | otherAuthError m =>
      exact Or.inl ⟨emptyContext, by simp [process_auth_redirect, hrun, remove_user]⟩
    | b2cPasswordError m =>
      refine Or.inr ⟨(get_auth_url cfg emptyContext none none [("policy", cfg.b2c.password)]).1,
        (get_auth_url cfg emptyContext none none [("policy", cfg.b2c.password)]).2,
        ?_, run_b2c_inv hrun⟩
      simp [process_auth_redirect, hrun, remove_user]
    | tokenExchangeError m =>
      exact Or.inl ⟨emptyContext, by simp [process_auth_redirect, hrun, remove_user]⟩
    | notImplementedError m =>
      exact Or.inl ⟨emptyContext, by simp [process_auth_redirect, hrun, remove_user]⟩
    | indexError =>
      exact Or.inl ⟨emptyContext, by simp [process_auth_redirect, hrun, remove_user]⟩
  · exact Or.inl ⟨ctx2, by simp [process_auth_redirect, hrun]⟩

/-- C6: with state verification passing and an error code that does not
begin with the forgot-password marker, the handshake raises the generic
`OtherAuthError`, clears the session, and returns `next_action`
unchanged; classification is by prefix match on the error code only. -/
theorem claim_C6 {α : Type} (tokenClient : TokenClient) (cfg : AADConfig)
    (ctx : IdentityContextData) (req_params : List (String × String)) (next_action : α)
    (redirect_uri response_type : Option String) (s ec : String)
    (hsp : dictGet req_params "state" = some s) (hcs : ctx.state = some s)
    (herr : dictGet req_params ERROR_CODE_PARAM_KEY = some ec)
    (hpre : strStartsWith ec B2C_FORGOT_PASSWORD_ERROR_CODE = false) :
    (∃ m, process_auth_redirect_run tokenClient cfg ctx req_params redirect_uri response_type
        = .error (AuthError.otherAuthError m)) ∧
    process_auth_redirect tokenClient cfg ctx req_params next_action redirect_uri response_type
      = (emptyContext, Sum.inl next_action) := by
  have hv : _verify_state ctx req_params = .ok { ctx with state := none } := by
    simp [_verify_state, hsp, hcs]
  have hp : _parse_redirect_errors req_params
      = .error (AuthError.otherAuthError "Unknown error while parsing redirect") := by
    simp [_parse_redirect_errors, herr, hpre]
  have hrun : process_auth_redirect_run tokenClient cfg ctx req_params redirect_uri response_type
      = .error (AuthError.otherAuthError "Unknown error while parsing redirect") := by
    simp [process_auth_redirect_run, hv, hp]
  exact ⟨⟨_, hrun⟩, by simp [process_auth_redirect, hrun, remove_user]⟩

/-- C6 witness: error code "access_denied" with matching state "s1". -/
theorem claim_C6_witness :
    (∃ m, process_auth_redirect_run (constClient tokenResultEmpty) cfgB2C ctxS1
        [("state", "s1"), ("error", "access_denied")] none none
        = .error (AuthError.otherAuthError m)) ∧
    process_auth_redirect (constClient tokenResultEmpty) cfgB2C ctxS1
      [("state", "s1"), ("error", "access_denied")] (0 : Nat) none none
      = (emptyContext, Sum.inl 0) :=
  claim_C6 (constClient tokenResultEmpty) cfgB2C ctxS1
    [("state", "s1"), ("error", "access_denied")] (0 : Nat) none none "s1" "access_denied"
    (by decide) (by decide) (by decide) (by decide)

/-- C4: with state verification passing, no provider error present, the
resolved response type being the authorization-code type, and the token
client returning a result without an `error` key that carries claims
(with a `name` claim) and an access token, `process_auth_redirect`
leaves Context Data authenticated with username from the `name` claim,
the access token copied, the dirty flag set and the token cache stored
back, and returns exactly the `next_action` it was given. -/
theorem claim_C4 {α : Type} (cfg : AADConfig) (ctx : IdentityContextData)
    (req_params : List (String × String)) (next_action : α)
    (redirect_uri response_type : Option String)
    (s uname tok : String) (claims : List (String × String)) (r : TokenResult)
    (hsp : dictGet req_params "state" = some s) (hcs : ctx.state = some s)
    (herr : dictGet req_params ERROR_CODE_PARAM_KEY = none)
    (hresp : pyOrStr response_type (pyOrStr cfg.auth_request.response_type RESPONSE_TYPE_CODE)
        = RESPONSE_TYPE_CODE)
    (hr : r.error = none) (hclaims : r.id_token_claims = some claims)
    (hname : dictGet claims "name" = some uname) (htok : r.access_token = some tok) :
    ∃ ctx2, process_auth_redirect (constClient r) cfg ctx req_params next_action redirect_uri
        response_type = (ctx2, Sum.inl next_action) ∧
      ctx2.authenticated = true ∧ ctx2.username = uname ∧ ctx2.access_token = some tok ∧
      ctx2.has_changed = true ∧ ctx2.token_cache = ctx.token_cache := by
  have hv : _verify_state ctx req_params = .ok { ctx with state := none } := by
    simp [_verify_state, hsp, hcs]
  have hp : _parse_redirect_errors req_params = .ok () := by
    simp [_parse_redirect_errors, herr]
  have hpr : _process_result r ctx.token_cache { ctx with state := none }
      = .ok { ctx with state := none, authenticated := true, id_token_claims := some claims, username := uname, access_token := some tok, has_changed := true } := by
    simp [_process_result, hr, hclaims, hname, htok]
  have hrun : process_auth_redirect_run (constClient r) cfg ctx req_params redirect_uri
      response_type
      = .ok { ctx with state := none, authenticated := true, id_token_claims := some claims, username := uname, access_token := some tok, has_changed := true } := by
    simp [process_auth_redirect_run, hv, hp, hresp, _extract_auth_response_payload,
      _x_change_auth_code_for_token, constClient, hpr]
  refine ⟨{ ctx with state := none, authenticated := true, id_token_claims := some claims, username := uname, access_token := some tok, has_changed := true }, ?_, rfl, rfl, rfl, rfl, rfl⟩
  simp [process_auth_redirect, hrun]

/-- C4 witness: end-to-end scenario 1 — params state "s1" and code
"abc", stored state "s1", mock result with access token "tok" and name
claim "alice". -/
theorem claim_C4_witness :
    ∃ ctx2, process_auth_redirect
        (constClient { error := none, error_description := none, id_token_claims := some [("name", "alice")], access_token := some "tok" })
        cfgB2C { emptyContext with state := some "s1", token_cache := some "tc" }
        [("state", "s1"), ("code", "abc")] (7 : Nat) none none = (ctx2, Sum.inl 7) ∧
      ctx2.authenticated = true ∧ ctx2.username = "alice" ∧ ctx2.access_token = some "tok" ∧
      ctx2.has_changed = true ∧
      ctx2.token_cache
        = ({ emptyContext with state := some "s1", token_cache := some "tc" } : IdentityContextData).token_cache :=
  claim_C4 cfgB2C { emptyContext with state := some "s1", token_cache := some "tc" }
    [("state", "s1"), ("code", "abc")] (7 : Nat) none none "s1" "alice" "tok"
    [("name", "alice")]
    { error := none, error_description := none, id_token_claims := some [("name", "alice")], access_token := some "tok" }
    (by decide) (by decide) (by decide) (by decide) rfl rfl (by decide) rfl

/-- Context with the policy "POL" recorded and an outstanding nonce. -/
def ctxPOL : IdentityContextData :=
  { emptyContext with last_used_b2c_policy := some "POL", nonce := some "n1" }

/-- Context holding a stored token cache "tc". -/
def ctxTC : IdentityContextData :=
  { emptyContext with token_cache := some "tc" }

/-- A client whose account cache is empty. -/
def gAEmpty : ClientConfig → List String := fun _ => []

/-- A silent client returning a success payload. -/
def silentOk : ClientConfig → List String → String → TokenResult :=
  fun _ _ _ => tokenResultEmpty

/-- A silent client returning an error payload. -/
def silentErr : ClientConfig → List String → String → TokenResult :=
  fun _ _ _ => { tokenResultEmpty with error := some "interaction_required" }

/-- C2, evaluated at the failing input (end-to-end scenario 3): on a
forgot-password redirect the handler builds the remediation URL with the
keyword `policy=aad_config.b2c.password`, which `get_auth_url` does not
receive as its `b2c_policy` parameter, so `prepare_b2c_auth` falls back
to the default susi policy "S": the session is cleared and a redirect is
returned, but the URL carries the susi segment and nowhere contains the
password-reset policy "P". -/
theorem claim_C2_eval :
    process_auth_redirect (constClient tokenResultEmpty) cfgB2C ctxS1 paramsPwReset
        (0 : Nat) none none
      = ({ emptyContext with last_used_b2c_policy := some "S" },
         Sum.inr "A/S?client_id=c&redirect_uri=R&scope=sc&response_type=code") ∧
    strContains "A/S?client_id=c&redirect_uri=R&scope=sc&response_type=code" cfgB2C.b2c.susi ∧
    ¬ strContains "A/S?client_id=c&redirect_uri=R&scope=sc&response_type=code"
        cfgB2C.b2c.password := by
  exact ⟨by decide, by decide, by decide⟩

/-- C3, evaluated at a concrete B2C exchange: the source calls
`_client_factory(b2c_policy, token_cache)` positionally against the
signature `(token_cache, b2c_policy)`, so the probe observes a client
whose authority is the base authority suffixed with the token-cache blob
"TC" and whose token cache is the policy "POL"; the factory at the
intended argument assignment would instead give authority "A/POL"
hydrated with cache "TC". -/
theorem claim_C3_eval :
    _x_change_auth_code_for_token probeClient cfgB2C ctxPOL (some "abc") (some "TC") none
      = { error := some "A/TC", error_description := some "POL",
          id_token_claims := none, access_token := none } ∧
    _client_factory cfgB2C (some "POL") (some "TC")
      = { client_id := "c", authority := "A/TC", token_cache := some "POL" } ∧
    _client_factory cfgB2C (some "TC") (some "POL")
      = { client_id := "c", authority := "A/POL", token_cache := some "TC" } := by
  exact ⟨by decide, by decide, by decide⟩

/-- C7 counterexample: silent acquisition with a stored token cache and
an empty account cache ends in Python's IndexError from
`client.get_accounts()[0]`, not in a surfaced provider error (the
provider-error surface of the taxonomy is `TokenExchangeError`); Context
Data is unchanged. -/
theorem claim_C7_counterexample :
    acquire_token_silently gAEmpty silentOk cfgB2C ctxTC none none none none
      = (ctxTC, some AuthError.indexError) ∧
    isProviderErrorSurface
      (acquire_token_silently gAEmpty silentOk cfgB2C ctxTC none none none none).2 = false := by
  exact ⟨by decide, by decide⟩

/-- C7 as amended: with no account argument and an empty account cache,
`acquire_token_silently` raises an index-out-of-range error (not a
provider error) before any silent request, leaving Context Data
unchanged; when the silent request itself returns an error payload,
Context Data is unchanged and the provider's error surfaces as a
`TokenExchangeError`. -/
theorem claim_C7 (getAccounts : ClientConfig → List String)
    (silentClient : ClientConfig → List String → String → TokenResult)
    (cfg : AADConfig) (ctx : IdentityContextData) (scopes : Option (List String))
    (authority token_cache : Option String) :
    (getAccounts (_client_factory cfg (pyOrOpt token_cache ctx.token_cache) none) = [] →
      acquire_token_silently getAccounts silentClient cfg ctx scopes none authority token_cache
        = (ctx, some AuthError.indexError)) ∧
    (∀ a emsg, (∀ c sc acct, (silentClient c sc acct).error = some emsg) →
      ∃ m, acquire_token_silently getAccounts silentClient cfg ctx scopes (some a) authority
          token_cache = (ctx, some (AuthError.tokenExchangeError m))) := by
  constructor
  · intro h
    simp [acquire_token_silently, h]
  · intro a emsg hall
    refine ⟨"_process_result: auth failed: token request resulted in error " ++ emsg, ?_⟩
    simp [acquire_token_silently, _process_result, hall]

/-- C7 witness: empty account cache raises the index error with Context
Data unchanged; an erroring silent request surfaces a
`TokenExchangeError` with Context Data unchanged. -/
theorem claim_C7_witness :
    acquire_token_silently gAEmpty silentOk cfgB2C ctxTC none none none none
      = (ctxTC, some AuthError.indexError) ∧
    ∃ m, acquire_token_silently gAEmpty silentErr cfgB2C ctxTC none (some "acct1") none none
      = (ctxTC, some (AuthError.tokenExchangeError m)) :=
  ⟨(claim_C7 gAEmpty silentOk cfgB2C ctxTC none none none).1 rfl,
   (claim_C7 gAEmpty silentErr cfgB2C ctxTC none none none).2 "acct1" "interaction_required"
     (fun _ _ _ => rfl)⟩
